import Mathlib

/-!
Verification of the honda-calphad analysis scripts.

This file gives a shallow embedding, over exact rational arithmetic, of the
arithmetic transforms and control flow of the repository's Python scripts:

* `data/process_tc_data.py` — `process_oxide`, `process_activity` and the
  batch loop at the bottom of the file;
* `simulations/pycalphad/cu_ceramic_affinity.py` — the linear
  `gibbs_formation_*` models and `ellingham_comparison`;
* `simulations/pycalphad/compute_cu_o_data.py` — `GHSERCU`,
  `COMPARISON_OXIDES` and `calc_comparison_oxide_dG`;
* `simulations/tcpython/extract_oxide_gibbs.py` — `get_phase_gibbs` and the
  per-temperature extraction loop of `main`.

Python floats are modelled as rationals (exact real arithmetic), strings as
Lean strings over their character lists, fallible operations as
`Except`/`Option`, and the external Thermo-Calc service as an oracle argument.
-/

namespace HondaCalphad

/-! ### Python string primitives used by the scripts -/

/-- Model of Python `str.upper()` (ASCII case mapping, as used on the
ASCII column names and phase names in these scripts). -/
def pyUpper (s : String) : String :=
  String.mk (s.data.map Char.toUpper)

/-- Drop leading whitespace of a character list. -/
def dropSpaces (l : List Char) : List Char :=
  l.dropWhile Char.isWhitespace

/-- Model of Python `str.strip()`: remove leading and trailing whitespace. -/
def pyStrip (s : String) : String :=
  String.mk ((dropSpaces ((dropSpaces s.data).reverse)).reverse)

/-- One rewriting pass for `pyReplace`, with explicit fuel (the fuel is set to
the length of the subject string, which bounds the number of steps). -/
def replaceLoop (p r : List Char) : Nat → List Char → List Char
  | _, [] => []
  | 0, s => s
  | Nat.succ fuel, c :: rest =>
    if !p.isEmpty && p.isPrefixOf (c :: rest) then
      r ++ replaceLoop p r fuel (List.drop p.length (c :: rest))
    else
      c :: replaceLoop p r fuel rest

/-- Model of Python `str.replace(pat, rep)` for a non-empty pattern:
replace every non-overlapping occurrence, scanning left to right. -/
def pyReplace (s pat rep : String) : String :=
  String.mk (replaceLoop pat.data rep.data s.data.length s.data)

/-- Model of the Python substring test `p in s`. -/
def listIsSub (p : List Char) : List Char → Bool
  | [] => p.isEmpty
  | c :: rest => p.isPrefixOf (c :: rest) || listIsSub p rest

/-- Python `p in s` on strings: substring containment. -/
def pyIn (p s : String) : Bool :=
  listIsSub p.data s.data

/-! ### data/process_tc_data.py -/

/-- A parsed tab-separated Thermo-Calc export, as produced by
`pd.read_csv(filepath, sep='\t', comment='#')`: a header of column names and
rows of numeric values aligned with the header. -/
structure RawFile where
  columns : List String
  rows : List (List ℚ)
deriving DecidableEq

/-- The raw-data directory `thermocalc/raw`, modelled as a lookup table from
file name to parsed content; a missing entry is a file that does not exist. -/
abbrev FileSystem := List (String × RawFile)

/-- `df.columns = [c.strip() for c in df.columns]` (line 31). -/
def stripColumns (raw : RawFile) : RawFile :=
  { raw with columns := raw.columns.map pyStrip }

/-- Column values `df[c]`: each row's entry at the position of `c` in the
header. -/
def colValues (df : RawFile) (c : String) : List ℚ :=
  df.rows.map (fun row => row.getD (df.columns.indexOf c) 0)

/-- `[c for c in df.columns if ch in c.upper()][0]` without the final
indexing: the first column whose upper-cased name contains `ch`
(lines 34-35). -/
def findFirstWith (cols : List String) (ch : Char) : Option String :=
  (cols.filter (fun c => (pyUpper c).data.contains ch)).head?

/-- One row of the processed CSV written by `process_oxide` (lines 38-43). -/
structure OutRow where
  T_K : ℚ
  T_C : ℚ
  GM_J : ℚ
  GM_kJ : ℚ
  dGf_kJ_per_molO2 : ℚ
deriving DecidableEq

/-- The five column assignments of `process_oxide` (lines 38-43), applied to
one temperature/Gibbs-energy pair read from the input file. -/
def mkOutRow (o2_factor t g : ℚ) : OutRow :=
  let t_k := t
  let t_c := t_k - 27315/100
  let gm_j := g
  let gm_kj := gm_j / 1000
  { T_K := t_k, T_C := t_c, GM_J := gm_j, GM_kJ := gm_kj,
    dGf_kJ_per_molO2 := gm_kj / o2_factor }

/-- Outcome of one `process_oxide` call that did not raise: either the
skip-and-log branch for a missing file, or the CSV written to
`thermocalc/processed`. -/
inductive ProcResult where
  | skipped
  | wrote (outName : String) (rows : List OutRow)
deriving DecidableEq

/-- `process_oxide(filename, o2_factor)` from `data/process_tc_data.py`.
A missing file returns the skip branch (lines 23-25); an unhandled Python
exception (the `[ ... ][0]` IndexError of lines 34-35 when no column
matches) is an `Except.error`. -/
def process_oxide (fs : FileSystem) (filename : String) (o2_factor : ℚ) :
    Except String ProcResult :=
  match List.lookup filename fs with
  | none => Except.ok ProcResult.skipped
  | some raw =>
    let df := stripColumns raw
    match findFirstWith df.columns 'T' with
    | none => Except.error "IndexError"
    | some t_col =>
      match findFirstWith df.columns 'G' with
      | none => Except.error "IndexError"
      | some g_col =>
        let rows := ((colValues df t_col).zip (colValues df g_col)).map
          (fun p => mkOutRow o2_factor p.1 p.2)
        Except.ok (ProcResult.wrote (pyReplace filename ".txt" "_processed.csv") rows)

/-- Outcome of `process_activity` (lines 51-63): skip for a missing file,
otherwise the stripped dataframe is written unchanged. -/
inductive ActResult where
  | skipped
  | wrote (outName : String) (df : RawFile)
deriving DecidableEq

/-- `process_activity(filename)` from `data/process_tc_data.py`. -/
def process_activity (fs : FileSystem) (filename : String) : ActResult :=
  match List.lookup filename fs with
  | none => ActResult.skipped
  | some raw => ActResult.wrote (pyReplace filename ".txt" "_processed.csv") (stripColumns raw)

/-- The batch loop of `__main__` (lines 81-82): process each oxide file in
turn; an unhandled exception from `process_oxide` aborts the whole run. -/
def runBatch (fs : FileSystem) : List (String × ℚ) → Except String (List ProcResult)
  | [] => Except.ok []
  | job :: rest =>
    match process_oxide fs job.1 job.2 with
    | Except.error e => Except.error e
    | Except.ok r =>
      match runBatch fs rest with
      | Except.error e => Except.error e
      | Except.ok rs => Except.ok (r :: rs)

/-! ### simulations/pycalphad/cu_ceramic_affinity.py -/

/-- Cu2O: 2Cu + 1/2 O2 -> Cu2O, linear model (line 33), kJ/mol. -/
def gibbs_formation_cu2o (T_K : ℚ) : ℚ := -170 + 75/1000 * T_K

/-- CuO: Cu + 1/2 O2 -> CuO, linear model (line 38), kJ/mol. -/
def gibbs_formation_cuo (T_K : ℚ) : ℚ := -155 + 85/1000 * T_K

/-- Al2O3: 2Al + 3/2 O2 -> Al2O3, linear model (line 44), kJ/mol. -/
def gibbs_formation_al2o3 (T_K : ℚ) : ℚ := -1676 + 32/100 * T_K

/-- MgO: Mg + 1/2 O2 -> MgO, linear model (line 49), kJ/mol. -/
def gibbs_formation_mgo (T_K : ℚ) : ℚ := -601 + 11/100 * T_K

/-- SiO2: Si + O2 -> SiO2, linear model (line 54), kJ/mol. -/
def gibbs_formation_sio2 (T_K : ℚ) : ℚ := -910 + 18/100 * T_K

/-- TiO2: Ti + O2 -> TiO2, linear model (line 59), kJ/mol. -/
def gibbs_formation_tio2 (T_K : ℚ) : ℚ := -944 + 18/100 * T_K

/-- FeO: Fe + 1/2 O2 -> FeO, linear model (line 64), kJ/mol. -/
def gibbs_formation_feo (T_K : ℚ) : ℚ := -264 + 65/1000 * T_K

/-- `T_steel = 1873` K (line 97). -/
def T_steel : ℚ := 1873

/-- The `oxides` dictionary of `ellingham_comparison` (lines 100-108):
each oxide's linear-model value at `T_steel`, divided by its O2 factor,
in the source's insertion order. -/
def ellingham_oxides : List (String × ℚ) :=
  [("Cu2O", gibbs_formation_cu2o T_steel / (1/2)),
   ("CuO", gibbs_formation_cuo T_steel / (1/2)),
   ("FeO", gibbs_formation_feo T_steel / (1/2)),
   ("Al2O3", gibbs_formation_al2o3 T_steel / (3/2)),
   ("MgO", gibbs_formation_mgo T_steel / (1/2)),
   ("SiO2", gibbs_formation_sio2 T_steel / 1),
   ("TiO2", gibbs_formation_tio2 T_steel / 1)]

/-- Insert into a list sorted ascending by the second component, after any
equal keys (stable insertion). -/
def insertByVal (x : String × ℚ) : List (String × ℚ) → List (String × ℚ)
  | [] => [x]
  | y :: rest => if x.2 < y.2 then x :: y :: rest else y :: insertByVal x rest

/-- Model of Python `sorted(oxides.items(), key=lambda x: x[1])`
(line 111): a stable ascending sort by value. -/
def sortByVal : List (String × ℚ) → List (String × ℚ)
  | [] => []
  | x :: rest => insertByVal x (sortByVal rest)

/-- `sorted_oxides` of `ellingham_comparison` (line 111). -/
def sorted_oxides : List (String × ℚ) :=
  sortByVal ellingham_oxides

/-! ### simulations/pycalphad/compute_cu_o_data.py -/

/-- Low-temperature piece of `GHSERCU` (lines 56-57), with the natural
logarithm of `T` passed in as the explicit parameter `lnT` (the embedding
keeps the transcendental factor symbolic; everything else is exact). -/
def GHSERCU_low (lnT T : ℚ) : ℚ :=
  -7770458/1000 + 130485235/1000000 * T - 24112392/1000000 * T * lnT
    - 265684/100000000 * T^2 + 129223/10^12 * T^3 + 52478 / T

/-- High-temperature piece of `GHSERCU` (line 59), used above the melting
point of Cu (1358 K). -/
def GHSERCU_high (lnT T : ℚ) : ℚ :=
  -13542026/1000 + 183803828/1000000 * T - 3138/100 * T * lnT
    + 364167 * 10^24 / T^9

/-- `GHSERCU(T)` (lines 48-60): `np.where(T < 1358, low, high)` selects the
expression piece by temperature. -/
def GHSERCU (lnT T : ℚ) : ℚ :=
  if T < 1358 then GHSERCU_low lnT T else GHSERCU_high lnT T

/-- `COMPARISON_OXIDES` (lines 94-100): `(A, B, O2_factor)` per oxide, with
`dGf = A + B*T` in kJ/mol. -/
def COMPARISON_OXIDES : List (String × ℚ × ℚ × ℚ) :=
  [("Al2O3", (-1676, 32/100, 3/2)),
   ("MgO", (-601, 11/100, 1/2)),
   ("SiO2", (-910, 18/100, 1)),
   ("TiO2", (-944, 18/100, 1)),
   ("FeO", (-264, 65/1000, 1/2))]

/-- `calc_comparison_oxide_dG(name, T_K)` (lines 103-106): the linearized
per-mole-O2 formation energy in J; `none` models the KeyError for an unknown
name. -/
def calc_comparison_oxide_dG (name : String) (T_K : ℚ) : Option ℚ :=
  (List.lookup name COMPARISON_OXIDES).map
    (fun abf => (abf.1 + abf.2.1 * T_K) / abf.2.2 * 1000)

/-! ### simulations/tcpython/extract_oxide_gibbs.py -/

/-- One entry of the `OXIDES` configuration table (lines 35-87). -/
structure OxideConfig where
  elements : List String
  X_O : ℚ
  metal_per_O2 : ℚ
  oxide_per_O2 : ℚ
  phase_patterns : List String
deriving DecidableEq

/-- The `Cu2O` entry of `OXIDES` (lines 38-44). -/
def cu2o_config : OxideConfig :=
  { elements := ["CU", "O"], X_O := 333/1000, metal_per_O2 := 4,
    oxide_per_O2 := 2, phase_patterns := ["CUPRITE", "CU2O"] }

/-- The `OXIDES` dictionary (lines 35-87). -/
def OXIDES : List (String × OxideConfig) :=
  [("Cu2O", cu2o_config),
   ("CuO", { elements := ["CU", "O"], X_O := 1/2, metal_per_O2 := 2,
             oxide_per_O2 := 2, phase_patterns := ["CUO", "TENORITE"] }),
   ("Al2O3", { elements := ["AL", "O"], X_O := 6/10, metal_per_O2 := 4/3,
               oxide_per_O2 := 2/3, phase_patterns := ["CORUNDUM", "AL2O3"] }),
   ("MgO", { elements := ["MG", "O"], X_O := 1/2, metal_per_O2 := 2,
             oxide_per_O2 := 2, phase_patterns := ["HALITE", "MGO", "PERICLASE"] }),
   ("SiO2", { elements := ["SI", "O"], X_O := 667/1000, metal_per_O2 := 1,
              oxide_per_O2 := 1, phase_patterns := ["QUARTZ", "SIO2", "TRIDYMITE", "CRISTOBALITE"] }),
   ("TiO2", { elements := ["TI", "O"], X_O := 667/1000, metal_per_O2 := 1,
              oxide_per_O2 := 1, phase_patterns := ["RUTILE", "TIO2", "ANATASE"] }),
   ("FeO", { elements := ["FE", "O"], X_O := 1/2, metal_per_O2 := 2,
             oxide_per_O2 := 2, phase_patterns := ["HALITE", "FEO", "WUSTITE"] })]

/-- Result of one successful `calc.calculate()` call: the stable phases, the
system Gibbs energy `GM`, and the per-phase energies that
`get_value_of("GM(phase)")` can return (a phase missing from the table models
the call raising, which `get_phase_gibbs` swallows with `pass`). -/
structure TCOutcome where
  stable : List String
  GM_system : ℚ
  phaseGM : List (String × ℚ)
deriving DecidableEq

/-- `get_phase_gibbs(result, phase_patterns)` (lines 90-104): scan the
patterns in priority order and the stable phases within each pattern, and on
a case-insensitive substring match try reading `GM(phase)`; return the first
success, else `None`. -/
def get_phase_gibbs (stable : List String) (phaseGM : List (String × ℚ))
    (phase_patterns : List String) : Option (ℚ × String) :=
  phase_patterns.findSome? (fun pattern =>
    stable.findSome? (fun phase =>
      if pyIn (pyUpper pattern) (pyUpper phase) then
        (List.lookup phase phaseGM).map (fun gm => (gm, phase))
      else
        none))

/-- A cell of the `results[T]` dictionary: never written, written with Python
`None`, or written with a number or a string. -/
inductive Cell where
  | absent
  | noneVal
  | num (q : ℚ)
  | str (s : String)
deriving DecidableEq

/-- The per-oxide cells that the extraction loop writes into `results[T]`
(lines 176-200). -/
structure OxideCells where
  GM : Cell
  GM_system : Cell
  G_metal : Cell
  phases : Cell
  oxide_phase : Cell
  dG_per_O2 : Cell
deriving DecidableEq

/-- Python truthiness fallback `x if x else y` for an optional float:
both `None` and `0.0` are falsy. -/
def truthyFallback (x : Option ℚ) (y : ℚ) : ℚ :=
  match x with
  | none => y
  | some v => if v = 0 then y else v

/-- Python truthiness fallback `x if x else y` for an optional string:
both `None` and the empty string are falsy. -/
def truthyFallbackStr (x : Option String) (y : String) : String :=
  match x with
  | none => y
  | some s => if s = "" then y else s

/-- The `except` branch of the per-temperature loop (lines 197-200): `None`
in the `GM` and `dG` cells, an error string in the `phases` cell, and the
remaining cells never written. -/
def errorMarker (e : String) : OxideCells :=
  { GM := Cell.noneVal, GM_system := Cell.absent, G_metal := Cell.absent,
    phases := Cell.str ("Error: " ++ e), oxide_phase := Cell.absent,
    dG_per_O2 := Cell.noneVal }

/-- The body of the per-temperature loop of `main` (lines 164-200) for one
oxide: on a successful calculation store the phase data and the per-mole-O2
formation energy, falling back from the matched phase's energy to the system
energy by Python truthiness; on an exception store the error marker. -/
def oxideStep (cfg : OxideConfig) (g_metal gO2 : ℚ)
    (outcome : Except String TCOutcome) : OxideCells :=
  match outcome with
  | Except.error e => errorMarker e
  | Except.ok r =>
    let pr := get_phase_gibbs r.stable r.phaseGM cfg.phase_patterns
    let gmOxide : Option ℚ := pr.map Prod.fst
    let oxPhase : Option String := pr.map Prod.snd
    let gmForCalc := truthyFallback gmOxide r.GM_system
    { GM := Cell.num gmForCalc,
      GM_system := Cell.num r.GM_system,
      G_metal := Cell.num g_metal,
      phases := Cell.str (String.intercalate ";" r.stable),
      oxide_phase := Cell.str (truthyFallbackStr oxPhase "NOT_FOUND"),
      dG_per_O2 := Cell.num (cfg.oxide_per_O2 * gmForCalc - cfg.metal_per_O2 * g_metal - gO2) }

/-- The whole per-temperature loop for one oxide: each temperature's cells
are produced from its own calculation outcome (the loop body only writes
keys of the current temperature). -/
def runOxideLoop (cfg : OxideConfig) (g_metal gO2 : Nat → ℚ)
    (oracle : Nat → Except String TCOutcome) (temps : List Nat) :
    List (Nat × OxideCells) :=
  temps.map (fun T => (T, oxideStep cfg (g_metal T) (gO2 T) (oracle T)))

/-- `results = {T: {"T_K": T, "T_C": T - 273.15} for T in temperatures}`
(line 116). -/
def initResults (temps : List Nat) : List (Nat × ℚ × ℚ) :=
  temps.map (fun T => (T, ((T : ℚ), (T : ℚ) - 27315/100)))

/-- `temperatures = list(range(T_MIN, T_MAX + 1, T_STEP))` (line 113) with
`T_MIN = 500`, `T_MAX = 2000`, `T_STEP = 50`. -/
def temperatures : List Nat :=
  List.range' 500 31 50

/-! ### Spec-side definitions

The specification describes the column heuristic of `process_oxide` as
selecting "the first column whose stripped name contains the substring T
(case-insensitively)" (and likewise G), and describes the per-mole-O2
values of `ellingham_comparison` as raw values `g` divided by factors `f`.
The following definitions transcribe those words, to be compared with the
definitions taken from the source. -/

/-- Spec wording for the column heuristic: the first column whose name
contains the character `ch` case-insensitively. -/
def spec_first_matching (cols : List String) (ch : Char) : Option String :=
  cols.find? (fun c => c.data.any (fun a => a.toUpper == ch))

/-- `process_oxide` with its two column lookups rewritten per the spec's
words (select by `spec_first_matching` over the stripped names); everything
else is byte-for-byte the source translation. -/
def process_oxide_by_spec (fs : FileSystem) (filename : String) (o2_factor : ℚ) :
    Except String ProcResult :=
  match List.lookup filename fs with
  | none => Except.ok ProcResult.skipped
  | some raw =>
    let df := stripColumns raw
    match spec_first_matching df.columns 'T' with
    | none => Except.error "IndexError"
    | some t_col =>
      match spec_first_matching df.columns 'G' with
      | none => Except.error "IndexError"
      | some g_col =>
        let rows := ((colValues df t_col).zip (colValues df g_col)).map
          (fun p => mkOutRow o2_factor p.1 p.2)
        Except.ok (ProcResult.wrote (pyReplace filename ".txt" "_processed.csv") rows)

/-- The spec's `(g, f)` table for `ellingham_comparison` at `T_steel`: each
oxide's raw linear-model value `g` (already in kJ/mol) and its
O2-normalization factor `f`, in the source's order. -/
def ellingham_inputs : List (String × ℚ × ℚ) :=
  [("Cu2O", (gibbs_formation_cu2o T_steel, 1/2)),
   ("CuO", (gibbs_formation_cuo T_steel, 1/2)),
   ("FeO", (gibbs_formation_feo T_steel, 1/2)),
   ("Al2O3", (gibbs_formation_al2o3 T_steel, 3/2)),
   ("MgO", (gibbs_formation_mgo T_steel, 1/2)),
   ("SiO2", (gibbs_formation_sio2 T_steel, 1)),
   ("TiO2", (gibbs_formation_tio2 T_steel, 1))]

/-! ### Concrete instances used by counterexamples and witnesses -/

/-- A one-file raw directory: a well-formed two-column export with a single
data row, temperature 1873 K and Gibbs energy 1000 J/mol. -/
def demoFS : FileSystem :=
  [("cu2o_dGf.txt", { columns := ["T", "G"], rows := [[1873, 1000]] })]

/-- A raw directory whose only file has neither a T column nor a G column. -/
def badFS : FileSystem :=
  [("bad.txt", { columns := ["X", "Y"], rows := [[1, 2]] })]

/-- A Thermo-Calc oracle that fails at 550 K and succeeds elsewhere. -/
def demoOracle : Nat → Except String TCOutcome := fun T =>
  if T = 550 then Except.error "calculation failed"
  else Except.ok { stable := ["CUPRITE"], GM_system := -100000, phaseGM := [("CUPRITE", -90000)] }

/-! ### Helper lemmas -/

/-- Every row written by a successful `process_oxide` run is `mkOutRow`
applied to the o2 factor and a temperature/Gibbs pair of the input file. -/
theorem process_oxide_rows (fs : FileSystem) (name : String) (f : ℚ)
    (outName : String) (rows : List OutRow)
    (h : process_oxide fs name f = Except.ok (ProcResult.wrote outName rows)) :
    ∀ r ∈ rows, ∃ t g, r = mkOutRow f t g := by
  unfold process_oxide at h
  split at h
  · simp at h
  · dsimp only at h
    split at h
    · simp at h
    · split at h
      · simp at h
      · simp only [Except.ok.injEq, ProcResult.wrote.injEq] at h
        obtain ⟨-, hrows⟩ := h
        subst hrows
        intro r hr
        rw [List.mem_map] at hr
        obtain ⟨p, -, rfl⟩ := hr
        exact ⟨p.1, p.2, rfl⟩

/-- The head of a filtered list is the first element satisfying the
predicate. -/
theorem head?_filter_eq_find? (p : α → Bool) (l : List α) :
    (l.filter p).head? = l.find? p := by
  induction l with
  | nil => rfl
  | cons a t ih => cases h : p a <;> simp [List.filter_cons, List.find?_cons, h, ih]

/-- Equality tests on characters commute. -/
theorem char_beq_comm (a b : Char) : (a == b) = (b == a) := by
  by_cases h : a = b
  · subst h; rfl
  · rw [beq_eq_false_iff_ne.mpr h, beq_eq_false_iff_ne.mpr (Ne.symm h)]

/-- Membership of a character in the upper-cased name coincides with the
spec's phrasing "the name contains the character case-insensitively". -/
theorem upperContains_eq_any (c : String) (ch : Char) :
    (pyUpper c).data.contains ch = c.data.any (fun a => a.toUpper == ch) := by
  show (c.data.map Char.toUpper).contains ch = _
  induction c.data with
  | nil => rfl
  | cons a t ih =>
    simp only [List.map_cons, List.contains_cons, List.any_cons, ← ih,
      char_beq_comm ch a.toUpper]

/-- The source's filter-then-index column lookup computes the spec's
first-matching-column selection. -/
theorem findFirstWith_eq_spec (cols : List String) (ch : Char) :
    findFirstWith cols ch = spec_first_matching cols ch := by
  unfold findFirstWith spec_first_matching
  rw [head?_filter_eq_find?]
  congr 1
  funext c
  exact upperContains_eq_any c ch

/-- A list filters to nil when no element satisfies the predicate. -/
theorem filter_eq_nil_of (p : α → Bool) (l : List α)
    (h : ∀ a ∈ l, p a = false) : l.filter p = [] := by
  induction l with
  | nil => rfl
  | cons a t ih =>
    simp [List.filter_cons, h a (List.mem_cons_self a t),
      ih (fun x hx => h x (List.mem_cons_of_mem a hx))]

/-- `sorted_oxides` evaluated: the concrete ascending table of per-mole-O2
values at 1873 K. -/
theorem sorted_oxides_eq :
    sorted_oxides =
      [("MgO", -39497/50), ("Al2O3", -17944/25), ("TiO2", -30343/50),
       ("SiO2", -28643/50), ("FeO", -28451/100), ("Cu2O", -1181/20),
       ("CuO", 841/100)] := by
  norm_num [sorted_oxides, ellingham_oxides, sortByVal, insertByVal, T_steel,
    gibbs_formation_cu2o, gibbs_formation_cuo, gibbs_formation_feo,
    gibbs_formation_al2o3, gibbs_formation_mgo, gibbs_formation_sio2,
    gibbs_formation_tio2]

/-! ### Claim C1 -/

/-- Claim C1, counterexample: in `process_oxide` the raw Gibbs value read
from the input is in J/mol, and the per-mole-O2 output column divides the
kJ-converted value by the factor. For the input row with raw value
`g = 1000` and factor `f = 1/2` the output column is `2`, while `g / f`
is `2000`: the claimed equality `output = g / f` fails on the raw value. -/
theorem c1_counterexample :
    process_oxide demoFS "cu2o_dGf.txt" (1/2) =
      Except.ok (ProcResult.wrote "cu2o_dGf_processed.csv" [mkOutRow (1/2) 1873 1000]) ∧
    (mkOutRow (1/2) 1873 1000).dGf_kJ_per_molO2 = 2 ∧
    (2 : ℚ) ≠ 1000 / (1/2) := by
  refine ⟨by rfl, by norm_num [mkOutRow], by norm_num⟩

/-- Claim C1 (amended): for every row written by `process_oxide`, the
per-mole-O2 column equals the kilojoule-converted raw value divided by the
factor, `(g / 1000) / f`; and in `ellingham_comparison`, whose model values
are already in kJ/mol, each per-O2 value equals `g / f` exactly. -/
theorem c1_per_molO2_normalization :
    (∀ fs name (f : ℚ) outName rows r,
        process_oxide fs name f = Except.ok (ProcResult.wrote outName rows) →
        r ∈ rows → r.dGf_kJ_per_molO2 = r.GM_J / 1000 / f) ∧
    ellingham_oxides.map Prod.snd = ellingham_inputs.map (fun q => q.2.1 / q.2.2) := by
  constructor
  · intro fs name f outName rows r h hr
    obtain ⟨t, g, rfl⟩ := process_oxide_rows fs name f outName rows h r hr
    simp [mkOutRow]
  · rfl

/-- Witness for C1's amended theorem at the demo input. -/
theorem c1_per_molO2_normalization_witness :
    (mkOutRow (1/2) 1873 1000).dGf_kJ_per_molO2 =
      (mkOutRow (1/2) 1873 1000).GM_J / 1000 / (1/2) :=
  c1_per_molO2_normalization.1 demoFS "cu2o_dGf.txt" (1/2) "cu2o_dGf_processed.csv"
    [mkOutRow (1/2) 1873 1000] (mkOutRow (1/2) 1873 1000) (by rfl)
    (List.mem_singleton.mpr rfl)

/-! ### Claim C2 -/

/-- Claim C2: in every output row, the kilojoule column is the joule column
divided by 1000, and the Celsius column is the Kelvin column minus 273.15 —
both for the rows `process_oxide` writes and for the `T_K`/`T_C` cells the
extraction script initializes. -/
theorem c2_unit_conversions :
    (∀ fs name (f : ℚ) outName rows r,
        process_oxide fs name f = Except.ok (ProcResult.wrote outName rows) →
        r ∈ rows → r.GM_kJ = r.GM_J / 1000 ∧ r.T_C = r.T_K - 27315/100) ∧
    (∀ temps p, p ∈ initResults temps → p.2.2 = p.2.1 - 27315/100) := by
  constructor
  · intro fs name f outName rows r h hr
    obtain ⟨t, g, rfl⟩ := process_oxide_rows fs name f outName rows h r hr
    exact ⟨rfl, rfl⟩
  · intro temps p hp
    simp only [initResults, List.mem_map] at hp
    obtain ⟨T, -, rfl⟩ := hp
    rfl

/-- Witness for C2 at the demo input. -/
theorem c2_unit_conversions_witness :
    (mkOutRow (1/2) 1873 1000).GM_kJ = (mkOutRow (1/2) 1873 1000).GM_J / 1000 ∧
    (mkOutRow (1/2) 1873 1000).T_C = (mkOutRow (1/2) 1873 1000).T_K - 27315/100 :=
  c2_unit_conversions.1 demoFS "cu2o_dGf.txt" (1/2) "cu2o_dGf_processed.csv"
    [mkOutRow (1/2) 1873 1000] (mkOutRow (1/2) 1873 1000) (by rfl)
    (List.mem_singleton.mpr rfl)

/-! ### Claim C3 -/

/-- Claim C3, counterexample: the fixed linear Cu2O model at 1873 K does
not reproduce the documented example values exactly:
`-170 + 0.075 * 1873 = -29.525`, not `-29.5`, and dividing by 0.5 gives
`-59.05`, not `-59`. -/
theorem c3_counterexample :
    gibbs_formation_cu2o 1873 ≠ -295/10 ∧
    gibbs_formation_cu2o 1873 / (1/2) ≠ -59 := by
  constructor <;> norm_num [gibbs_formation_cu2o]

/-- Claim C3 (amended): the Cu2O model at 1873 K evaluates to exactly
-29.525 kJ/mol, which is 0.025 below the documented -29.5, and the per-mole-O2
value is exactly -59.05 kJ/mol, 0.05 below the documented -59: the documented
example values are roundings of the computed ones. -/
theorem c3_linear_model_value :
    gibbs_formation_cu2o 1873 = -29525/1000 ∧
    gibbs_formation_cu2o 1873 / (1/2) = -5905/100 ∧
    gibbs_formation_cu2o 1873 - (-295/10) = -1/40 ∧
    gibbs_formation_cu2o 1873 / (1/2) - (-59) = -1/20 := by
  refine ⟨?_, ?_, ?_, ?_⟩ <;> norm_num [gibbs_formation_cu2o]

/-! ### Claim C4 -/

/-- Claim C4: at steelmaking temperature 1873 K the per-mole-O2 values of
the linear oxide models, sorted ascending as in `ellingham_comparison`,
place MgO first, Al2O3 second and Cu2O after both: the computed stability
ordering matches the documented `MgO > Al2O3 > TiO2 > SiO2 > FeO >> Cu2O >
CuO`. -/
theorem c4_stability_ordering :
    sorted_oxides.map Prod.fst =
      ["MgO", "Al2O3", "TiO2", "SiO2", "FeO", "Cu2O", "CuO"] ∧
    List.Pairwise (fun a b => a.2 ≤ b.2) sorted_oxides ∧
    gibbs_formation_mgo T_steel / (1/2) < gibbs_formation_al2o3 T_steel / (3/2) ∧
    gibbs_formation_al2o3 T_steel / (3/2) < gibbs_formation_cu2o T_steel / (1/2) := by
  refine ⟨by rw [sorted_oxides_eq]; rfl, ?_, ?_, ?_⟩
  · rw [sorted_oxides_eq]
    norm_num [List.pairwise_cons]
  · norm_num [gibbs_formation_mgo, gibbs_formation_al2o3, T_steel]
  · norm_num [gibbs_formation_al2o3, gibbs_formation_cu2o, T_steel]

/-! ### Claim C5 -/

/-- Claim C5: when the input file does not exist, `process_oxide` (and
`process_activity`) take the skip-and-log branch, writing nothing and
raising nothing, and the batch loop goes on to process the remaining
files. -/
theorem c5_missing_input_is_skipped (fs : FileSystem) (name : String) (f : ℚ)
    (rest : List (String × ℚ)) (h : List.lookup name fs = none) :
    process_oxide fs name f = Except.ok ProcResult.skipped ∧
    process_activity fs name = ActResult.skipped ∧
    runBatch fs ((name, f) :: rest) =
      (runBatch fs rest).map (fun rs => ProcResult.skipped :: rs) := by
  have h1 : process_oxide fs name f = Except.ok ProcResult.skipped := by
    unfold process_oxide
    rw [h]
  have h2 : runBatch fs ((name, f) :: rest) =
      match process_oxide fs name f with
      | Except.error e => Except.error e
      | Except.ok r =>
        match runBatch fs rest with
        | Except.error e => Except.error e
        | Except.ok rs => Except.ok (r :: rs) := rfl
  refine ⟨h1, by unfold process_activity; rw [h], ?_⟩
  rw [h2, h1]
  cases hr : runBatch fs rest <;> rfl

/-- Witness for C5: the empty directory misses every file. -/
theorem c5_missing_input_is_skipped_witness :
    process_oxide [] "missing.txt" (1/2) = Except.ok ProcResult.skipped :=
  (c5_missing_input_is_skipped [] "missing.txt" (1/2) [] (by rfl)).1

/-! ### Claim C6 -/

/-- Claim C6: a temperature whose calculation raises gets exactly the error
marker (Python `None` in the `GM` and `dG` cells and an `"Error: ..."`
string in the phases cell) recorded for it; the loop still emits an entry
for every temperature; and the cells of every other temperature are
unchanged by what happened at the failing one. -/
theorem c6_per_temperature_errors_isolated (cfg : OxideConfig)
    (g_metal gO2 : Nat → ℚ) (oracle : Nat → Except String TCOutcome)
    (temps : List Nat) (T : Nat) (e : String)
    (he : oracle T = Except.error e) :
    oxideStep cfg (g_metal T) (gO2 T) (oracle T) = errorMarker e ∧
    (errorMarker e).GM = Cell.noneVal ∧
    (errorMarker e).dG_per_O2 = Cell.noneVal ∧
    (errorMarker e).phases = Cell.str ("Error: " ++ e) ∧
    (runOxideLoop cfg g_metal gO2 oracle temps).map Prod.fst = temps ∧
    (∀ oracle2 : Nat → Except String TCOutcome,
      (∀ U, U ≠ T → oracle2 U = oracle U) →
      ∀ U, U ≠ T →
        List.lookup U (runOxideLoop cfg g_metal gO2 oracle2 temps) =
        List.lookup U (runOxideLoop cfg g_metal gO2 oracle temps)) := by
  refine ⟨by rw [he]; rfl, rfl, rfl, rfl,
    by simp [runOxideLoop, Function.comp_def], ?_⟩
  intro oracle2 hagree U hU
  induction temps with
  | nil => rfl
  | cons V rest ih =>
    simp only [runOxideLoop, List.map_cons, List.lookup]
    by_cases hUV : U = V
    · subst hUV
      rw [hagree U hU]
      simp
    · have hb : (U == V) = false := by simp [hUV]
      rw [hb]
      simpa only [runOxideLoop] using ih

/-- Witness for C6 at the demo oracle failing at 550 K. -/
theorem c6_per_temperature_errors_isolated_witness :
    oxideStep cu2o_config (-50000) (-200000) (demoOracle 550)
      = errorMarker "calculation failed" :=
  (c6_per_temperature_errors_isolated cu2o_config (fun _ => -50000)
    (fun _ => -200000) demoOracle [500, 550, 600] 550 "calculation failed"
    (by rfl)).1

/-! ### Claim C7 -/

/-- Claim C7, counterexample: the linear oxide models carry no range check
or invalid flag. The per-O2 table of `ellingham_comparison` contains the CuO
value at 1873 K — far above CuO's decomposition temperature of about 1273 K
noted in `compute_cu_o_data.py` — and that value is the straight-line
continuation of the same fitted expression across the transition; likewise
`calc_comparison_oxide_dG` for FeO at 1900 K is the straight-line
continuation of its value at 1400 K. The evaluation silently extrapolates
the fitted expressions with no alternate piece and no flag. -/
theorem c7_counterexample :
    List.lookup "CuO" ellingham_oxides = some (gibbs_formation_cuo 1873 / (1/2)) ∧
    gibbs_formation_cuo 1873 = gibbs_formation_cuo 1273 + 85/1000 * (1873 - 1273) ∧
    calc_comparison_oxide_dG "FeO" 1900 =
      (calc_comparison_oxide_dG "FeO" 1400).map (fun v => v + 130 * (1900 - 1400)) := by
  have hFeO : List.lookup "FeO" COMPARISON_OXIDES = some ((-264 : ℚ), 65/1000, 1/2) := rfl
  refine ⟨rfl, by norm_num [gibbs_formation_cuo], ?_⟩
  simp only [calc_comparison_oxide_dG, hFeO, Option.map_some']
  norm_num

/-- Claim C7 (amended): `GHSERCU` does select the alternate high-temperature
expression piece at and above Cu's melting point of 1358 K, and the two
pieces genuinely differ there; but the linear oxide models evaluate one
fitted expression at every temperature — `gibbs_formation_cuo` and
`calc_comparison_oxide_dG` are globally affine, with no range check and no
invalid flag, so their callers silently extrapolate across phase
transitions. -/
theorem c7_range_handling (lnT T : ℚ) (h : ¬ T < 1358) :
    GHSERCU lnT T = GHSERCU_high lnT T ∧
    GHSERCU_low (75/10) 1873 ≠ GHSERCU_high (75/10) 1873 ∧
    (∀ U : ℚ, gibbs_formation_cuo U = gibbs_formation_cuo 1273 + 85/1000 * (U - 1273)) ∧
    (∀ U : ℚ, calc_comparison_oxide_dG "FeO" U =
      (calc_comparison_oxide_dG "FeO" 1400).map (fun v => v + 130 * (U - 1400))) := by
  have hFeO : List.lookup "FeO" COMPARISON_OXIDES = some ((-264 : ℚ), 65/1000, 1/2) := rfl
  refine ⟨by unfold GHSERCU; rw [if_neg h], by norm_num [GHSERCU_low, GHSERCU_high], ?_, ?_⟩
  · intro U
    unfold gibbs_formation_cuo
    ring
  · intro U
    simp only [calc_comparison_oxide_dG, hFeO, Option.map_some', Option.some.injEq]
    ring

/-- Witness for C7's amended theorem above the melting point. -/
theorem c7_range_handling_witness :
    GHSERCU (75/10) 1873 = GHSERCU_high (75/10) 1873 :=
  (c7_range_handling (75/10) 1873 (by norm_num)).1

/-! ### Claim C8 -/

/-- Claim C8: `process_oxide` selects the temperature column as the first
column whose stripped name contains the substring T case-insensitively, and
the Gibbs column as the first whose stripped name contains G — the source's
filter-and-index lookup computes exactly the spec's first-match selection. -/
theorem c8_column_selection_heuristic :
    ∀ fs filename (f : ℚ),
      process_oxide fs filename f = process_oxide_by_spec fs filename f := by
  intro fs filename f
  unfold process_oxide process_oxide_by_spec
  simp only [findFirstWith_eq_spec]

/-! ### Claim C9 -/

/-- Claim C9: when the input file exists but no column name contains T (or
none contains G), the `[...][0]` lookup in `process_oxide` indexes an empty
list: the run raises an unhandled IndexError, and the batch loop aborts
instead of continuing. -/
theorem c9_unguarded_column_lookup (fs : FileSystem) (name : String)
    (raw : RawFile) (f : ℚ) (rest : List (String × ℚ))
    (hfs : List.lookup name fs = some raw)
    (hcols : (∀ c ∈ raw.columns, ((pyUpper (pyStrip c)).data.contains 'T') = false) ∨
             (∀ c ∈ raw.columns, ((pyUpper (pyStrip c)).data.contains 'G') = false)) :
    process_oxide fs name f = Except.error "IndexError" ∧
    runBatch fs ((name, f) :: rest) = Except.error "IndexError" := by
  have hnone : ∀ ch : Char,
      (∀ c ∈ raw.columns, ((pyUpper (pyStrip c)).data.contains ch) = false) →
      findFirstWith (stripColumns raw).columns ch = none := by
    intro ch hch
    unfold findFirstWith stripColumns
    rw [filter_eq_nil_of]
    · rfl
    · intro x hx
      rw [List.mem_map] at hx
      obtain ⟨c, hc, rfl⟩ := hx
      exact hch c hc
  have h1 : process_oxide fs name f = Except.error "IndexError" := by
    unfold process_oxide
    rw [hfs]
    dsimp only
    cases hcols with
    | inl hT => rw [hnone 'T' hT]
    | inr hG =>
      cases hfind : findFirstWith (stripColumns raw).columns 'T' with
      | none => rfl
      | some t_col =>
        dsimp only
        rw [hnone 'G' hG]
  have h2 : runBatch fs ((name, f) :: rest) =
      match process_oxide fs name f with
      | Except.error e => Except.error e
      | Except.ok r =>
        match runBatch fs rest with
        | Except.error e => Except.error e
        | Except.ok rs => Except.ok (r :: rs) := rfl
  refine ⟨h1, ?_⟩
  rw [h2, h1]

/-- Witness for C9: a file whose columns are named X and Y aborts the
batch. -/
theorem c9_unguarded_column_lookup_witness :
    process_oxide badFS "bad.txt" (1/2) = Except.error "IndexError" ∧
    runBatch badFS [("bad.txt", 1/2), ("next.txt", 1)] = Except.error "IndexError" :=
  c9_unguarded_column_lookup badFS "bad.txt"
    { columns := ["X", "Y"], rows := [[1, 2]] } (1/2) [("next.txt", 1)]
    (by rfl) (Or.inl (by decide))

/-! ### Claim C10 -/

/-- Claim C10: the fallback from the matched oxide phase's Gibbs energy to
the system energy is Python truthiness, not an is-None test: when
`get_phase_gibbs` finds a phase whose energy is exactly 0.0, the stored `GM`
cell and the formation-energy calculation both use `GM_system`, even though
the matched phase is recorded in the `oxide_phase` cell. -/
theorem c10_zero_gm_uses_system_energy (cfg : OxideConfig)
    (g_metal gO2 gmSys : ℚ) (stable : List String)
    (phaseGM : List (String × ℚ)) (p : String)
    (hfound : get_phase_gibbs stable phaseGM cfg.phase_patterns = some (0, p))
    (hp : p ≠ "") :
    (oxideStep cfg g_metal gO2
        (Except.ok { stable := stable, GM_system := gmSys, phaseGM := phaseGM })).GM
      = Cell.num gmSys ∧
    (oxideStep cfg g_metal gO2
        (Except.ok { stable := stable, GM_system := gmSys, phaseGM := phaseGM })).dG_per_O2
      = Cell.num (cfg.oxide_per_O2 * gmSys - cfg.metal_per_O2 * g_metal - gO2) ∧
    (oxideStep cfg g_metal gO2
        (Except.ok { stable := stable, GM_system := gmSys, phaseGM := phaseGM })).oxide_phase
      = Cell.str p := by
  simp only [oxideStep, hfound, Option.map_some', truthyFallback, truthyFallbackStr]
  simp [hp]

/-- Witness for C10: a CUPRITE phase with Gibbs energy exactly 0. -/
theorem c10_zero_gm_uses_system_energy_witness :
    (oxideStep cu2o_config (-50000) (-200000)
        (Except.ok { stable := ["CUPRITE"], GM_system := -100000,
                     phaseGM := [("CUPRITE", 0)] })).GM
      = Cell.num (-100000) :=
  (c10_zero_gm_uses_system_energy cu2o_config (-50000) (-200000) (-100000)
    ["CUPRITE"] [("CUPRITE", 0)] "CUPRITE" (by rfl) (by decide)).1

end HondaCalphad
